import Mathlib

/-!
Shallow embedding of `midi_joystick.py` (fisadev/midi_joystick_experiments).

MIDI messages are mido message objects probed by attribute (`hasattr`); we
model them as a record of the attributes the program reads, each optional.
Joystick state and the virtual gamepad / keyboard sinks are modelled by
explicit state passing and by lists of emitted commands.
-/

set_option autoImplicit false

/-- A mido MIDI message as seen by the program: a `type` string plus the
optional attributes the code probes (`channel`, `value`, `program`, `note`,
`control`).  A missing attribute is `none`. -/
structure MidiMessage where
  type : String
  channel : Option Int := none
  value : Option Int := none
  program : Option Int := none
  note : Option Int := none
  control : Option Int := none
deriving DecidableEq

/-- Well-formedness of real mido messages (the external transport's
invariant, spec section 3 MidiEvent): a `control_change` carries `value` and
`control`; a `program_change` carries `program` and no `value`; `note_on` and
`note_off` carry `note` and neither `value` nor `program`. -/
def MidiMessage.wellFormed (m : MidiMessage) : Prop :=
  (m.type = "control_change" → m.value.isSome ∧ m.control.isSome)
  ∧ (m.type = "program_change" → m.program.isSome ∧ m.value = none)
  ∧ ((m.type = "note_on" ∨ m.type = "note_off") →
      m.note.isSome ∧ m.value = none ∧ m.program = none)

instance (m : MidiMessage) : Decidable m.wellFormed := by
  unfold MidiMessage.wellFormed; infer_instance

/-- `extract_midi_value` (midi_joystick.py lines 10-29): take the `value`
attribute if present, else `program`, else 1 for a `note_on`, 0 for a
`note_off`; otherwise raise (Python raises `ValueError`; the spec calls this
error `UnrecognizedEventShape`). -/
def extract_midi_value (midi_message : MidiMessage) : Except String Int :=
  match midi_message.value with
  | some value => Except.ok value
  | none =>
    match midi_message.program with
    | some value => Except.ok value
    | none =>
      if midi_message.type = "note_on" then Except.ok 1
      else if midi_message.type = "note_off" then Except.ok 0
      else Except.error "UnrecognizedEventShape"

/-- The commands the engine emits to its sinks (spec section 6): virtual
gamepad moves/presses addressed by joystick id, and keyboard key events. -/
inductive SinkAction where
  | move_axis (joystick : Nat) (axis : Nat) (value : ℚ)
  | press (joystick : Nat) (button : Nat)
  | release (joystick : Nat) (button : Nat)
  | keyDown (key : String)
  | keyUp (key : String)
deriving DecidableEq

/-- The `Mapping` class fields (midi_joystick.py lines 38-54).  The Python
constructor's target joystick is an object; we identify joysticks by a
numeric id.  Defaults are the Python keyword defaults. -/
structure Mapping where
  when_device : String
  when_channel : Option Int := none
  when_is_program : Bool := false
  when_control : Option Int := none
  when_note : Option Int := none
  when_value_between : Int × Int := (0, 127)
  with_joystick : Option Nat := none
  do_button : Option Nat := none
  do_axis : Option Nat := none
  do_keys : Option String := none
  do_on_off_threshold : Option ℚ := none
deriving DecidableEq

/-- Python `sep in s` for the one-character separators the program uses
(`":" in axis_name`, `"y" in param`), performed on the character list of the
string. -/
def py_contains (s : String) (sep : String) : Bool :=
  match sep.data with
  | [c] => s.data.contains c
  | _ => false

/-- Python `s.split(sep)` for the one-character separators the program uses
(`axis_name.split(":")`, `keys.split("+")`), performed on the character list
of the string. -/
def py_split (s : String) (sep : String) : List String :=
  match sep.data with
  | [c] => (s.data.splitOn c).map (fun cs => String.mk cs)
  | _ => [s]

/-- `Mapping.KEY_SEP` (midi_joystick.py line 36). -/
def Mapping.KEY_SEP : String := "+"

/-- The constructor checks of `Mapping.__init__` (midi_joystick.py lines
56-64): a button or axis action requires a target joystick, and a note
condition cannot drive an axis.  Returns the mapping unchanged when both
checks pass, an error (Python `ValueError`) otherwise. -/
def Mapping.init (self : Mapping) : Except String Mapping :=
  if (self.do_button.isSome ∨ self.do_axis.isSome) ∧ self.with_joystick = none then
    Except.error "To simulate a joystick button or axis, you must specify the joystick number in which to simulate them"
  else if self.when_note.isSome ∧ self.do_axis.isSome then
    Except.error "Cannot use note buttons as axes, they are binary (on/off) and can only be used to launch buttons or keyboard keys presses."
  else
    Except.ok self

/-- `Mapping.matches` (midi_joystick.py lines 73-100).  The Python early
returns are flattened into an if-chain; accessing a missing attribute
(`midi_message.control`, `midi_message.note`) is a Python `AttributeError`,
modelled as `Except.error`.  Note the method never looks at
`self.when_device`. -/
def Mapping.matches (self : Mapping) (midi_message : MidiMessage) : Except String Bool :=
  if self.when_channel.isSome ∧ midi_message.channel ≠ self.when_channel then
    Except.ok false
  else if self.when_is_program ∧ midi_message.type ≠ "program_change" then
    Except.ok false
  else if self.when_control.isSome ∧ midi_message.type ≠ "control_change" then
    Except.ok false
  else if self.when_control.isSome ∧ midi_message.control = none then
    Except.error "AttributeError: control"
  else if self.when_control.isSome ∧ midi_message.control ≠ self.when_control then
    Except.ok false
  else if self.when_note.isSome ∧ midi_message.type ≠ "note_on" ∧ midi_message.type ≠ "note_off" then
    Except.ok false
  else if self.when_note.isSome ∧ midi_message.note = none then
    Except.error "AttributeError: note"
  else if self.when_note.isSome ∧ midi_message.note ≠ self.when_note then
    Except.ok false
  else if self.when_is_program ∨ self.when_control.isSome then
    match extract_midi_value midi_message with
    | Except.error e => Except.error e
    | Except.ok value =>
      if ¬(self.when_value_between.1 ≤ value ∧ value ≤ self.when_value_between.2) then
        Except.ok false
      else
        Except.ok true
  else
    Except.ok true

/-- `Mapping.run` (midi_joystick.py lines 102-138), with the sink calls
reified as a list of `SinkAction`s in emission order: the axis move first, then
the button press/release, then the key downs/ups.  Calling a method on a
`None` joystick is a Python `AttributeError`, modelled as `Except.error`;
the axis ratio's division raises `ZeroDivisionError` when the configured
range is degenerate (`input_max - input_min == 0`), also modelled as
`Except.error`. -/
def Mapping.run (self : Mapping) (midi_message : MidiMessage) : Except String (List SinkAction) :=
  match extract_midi_value midi_message with
  | Except.error e => Except.error e
  | Except.ok input_value =>
    let axis_part : Except String (List SinkAction) :=
      match self.do_axis, self.with_joystick with
      | none, _ => Except.ok []
      | some do_axis, some j =>
        let input_min := self.when_value_between.1
        let input_max := self.when_value_between.2
        if input_max - input_min = 0 then
          Except.error "ZeroDivisionError"
        else
          let axis_value : ℚ :=
            ((input_value : ℚ) - (input_min : ℚ)) / ((input_max : ℚ) - (input_min : ℚ))
          Except.ok [SinkAction.move_axis j do_axis axis_value]
      | some _, none => Except.error "AttributeError: move_axis on None"
    match axis_part with
    | Except.error e => Except.error e
    | Except.ok axis_actions =>
      if self.do_button.isSome ∨ self.do_keys.isSome then
        let on_value : Bool :=
          if self.when_note.isSome then
            decide (input_value = 1)
          else
            match self.do_on_off_threshold with
            | some threshold => decide (threshold ≤ (input_value : ℚ))
            | none =>
              decide (((self.when_value_between.1 + self.when_value_between.2 : Int) : ℚ) / 2
                        ≤ (input_value : ℚ))
        let button_part : Except String (List SinkAction) :=
          match self.do_button, self.with_joystick with
          | none, _ => Except.ok []
          | some do_button, some j =>
            Except.ok (if on_value then [SinkAction.press j do_button] else [SinkAction.release j do_button])
          | some _, none => Except.error "AttributeError: press on None"
        match button_part with
        | Except.error e => Except.error e
        | Except.ok button_actions =>
          let key_actions : List SinkAction :=
            match self.do_keys with
            | none => []
            | some do_keys =>
              if on_value then
                (py_split do_keys Mapping.KEY_SEP).map SinkAction.keyDown
              else
                ((py_split do_keys Mapping.KEY_SEP).reverse).map SinkAction.keyUp
          Except.ok (axis_actions ++ (button_actions ++ key_actions))
      else
        Except.ok axis_actions

/-- `Mapping.run_if_matches` (midi_joystick.py lines 66-71). -/
def Mapping.run_if_matches (self : Mapping) (midi_message : MidiMessage) : Except String (List SinkAction) :=
  match self.matches midi_message with
  | Except.error e => Except.error e
  | Except.ok true => self.run midi_message
  | Except.ok false => Except.ok []

/-- The set of device names the main loop opens ports for
(midi_joystick.py line 226): the distinct `when_device` values. -/
def device_names (mappings : List Mapping) : List String :=
  (mappings.map Mapping.when_device).dedup

/-- One iteration of the inner loop of `run_midi_joysticks` (midi_joystick.py
lines 231-234): a message received on the port named `the_port_name` is fed
to `run_if_matches` of every mapping, in declaration order.  The port name is
only printed — it never filters which mappings run. -/
def run_midi_joysticks_step (mappings : List Mapping) (the_port_name : String)
    (message : MidiMessage) : Except String (List SinkAction) :=
  match mappings with
  | [] => Except.ok []
  | mapping :: rest =>
    match mapping.run_if_matches message with
    | Except.error e => Except.error e
    | Except.ok actions =>
      match run_midi_joysticks_step rest the_port_name message with
      | Except.error e => Except.error e
      | Except.ok more => Except.ok (actions ++ more)

/-- The commands `Joystick.move_axis` issues to the vgamepad pad object. -/
inductive PadCommand where
  | left_joystick_float (x_value_float : ℚ) (y_value_float : ℚ)
  | right_joystick_float (x_value_float : ℚ) (y_value_float : ℚ)
  | left_trigger_float (value_float : ℚ)
  | right_trigger_float (value_float : ℚ)
  | update
deriving DecidableEq

/-- The retained per-stick parameters (the Python dicts
`dict(x_value_float=..., y_value_float=...)`). -/
structure StickParams where
  x_value_float : ℚ
  y_value_float : ℚ
deriving DecidableEq

/-- The `Joystick` wrapper state (midi_joystick.py lines 172-176): the
retained parameters of each stick, initialised to `x=-1, y=1`. -/
structure Joystick where
  current_params_left_joystick_float : StickParams := ⟨-1, 1⟩
  current_params_right_joystick_float : StickParams := ⟨-1, 1⟩
deriving DecidableEq

/-- `Joystick.AXES` (midi_joystick.py lines 164-170). -/
def Joystick.AXES : List String :=
  ["triggers",
   "left_joystick_float:x_value_float",
   "left_joystick_float:y_value_float",
   "right_joystick_float:x_value_float",
   "right_joystick_float:y_value_float"]

/-- `Joystick.move_axis` (midi_joystick.py lines 192-215): composite stick
axes (name containing a colon) rescale the ratio to `[-1,1]`, negate y,
update the retained component and resubmit both components; the `triggers`
axis splits the ratio at `0.5` between the two trigger floats.  Returns the
new state and the pad commands issued. -/
def Joystick.move_axis (self : Joystick) (axis_number : Nat) (value : ℚ) :
    Joystick × List PadCommand :=
  let axis_name := Joystick.AXES.getD axis_number ""
  if py_contains axis_name ":" then
    let value := value * 2 - 1
    let parts := py_split axis_name ":"
    let axis_name := parts.getD 0 ""
    let param := parts.getD 1 ""
    let value := if py_contains param "y" then -value else value
    if axis_name = "left_joystick_float" then
      let current_params :=
        if param = "x_value_float" then
          { self.current_params_left_joystick_float with x_value_float := value }
        else
          { self.current_params_left_joystick_float with y_value_float := value }
      ({ self with current_params_left_joystick_float := current_params },
       [PadCommand.left_joystick_float current_params.x_value_float current_params.y_value_float,
        PadCommand.update])
    else
      let current_params :=
        if param = "x_value_float" then
          { self.current_params_right_joystick_float with x_value_float := value }
        else
          { self.current_params_right_joystick_float with y_value_float := value }
      ({ self with current_params_right_joystick_float := current_params },
       [PadCommand.right_joystick_float current_params.x_value_float current_params.y_value_float,
        PadCommand.update])
  else
    if value ≥ 1/2 then
      (self,
       [PadCommand.left_trigger_float (value * 2),
        PadCommand.right_trigger_float 0,
        PadCommand.update])
    else
      (self,
       [PadCommand.left_trigger_float 0,
        PadCommand.right_trigger_float (1 - value * 2),
        PadCommand.update])

deriving instance DecidableEq for Except

/-- C1: the claim says a `Mapping` never matches (and `run_if_matches` does
nothing) for an event whose device differs from `when_device`.  The code
violates this: `Mapping.matches` never reads `when_device`, and the main
loop feeds a message received on any open port to every mapping.  Here a
mapping scoped to device `"A"` (validly constructed, and with `"B"` among
the opened device ports) matches and runs on a control-change that arrived
on port `"B"`. -/
theorem dispatch_ignores_device :
    Mapping.init { when_device := "A", when_control := some 10, do_keys := some "enter" }
      = Except.ok { when_device := "A", when_control := some 10, do_keys := some "enter" }
    ∧ device_names
        [{ when_device := "A", when_control := some 10, do_keys := some "enter" },
         { when_device := "B", when_control := some 99, do_keys := some "space" }]
        = ["A", "B"]
    ∧ (Mapping.when_device { when_device := "A", when_control := some 10, do_keys := some "enter" })
        ≠ "B"
    ∧ Mapping.matches { when_device := "A", when_control := some 10, do_keys := some "enter" }
        { type := "control_change", channel := some 0, value := some 100, control := some 10 }
        = Except.ok true
    ∧ run_midi_joysticks_step
        [{ when_device := "A", when_control := some 10, do_keys := some "enter" },
         { when_device := "B", when_control := some 99, do_keys := some "space" }]
        "B"
        { type := "control_change", channel := some 0, value := some 100, control := some 10 }
        = Except.ok [SinkAction.keyDown "enter"] := by
  refine ⟨by rfl, by decide, by decide, by rfl, ?_⟩
  norm_num [run_midi_joysticks_step, Mapping.run_if_matches, Mapping.run, Mapping.matches,
    extract_midi_value, py_split, Mapping.KEY_SEP]
  decide

/-- C2: evaluation of the trigger-pair branch of `Joystick.move_axis`.  The
claim (and the spec) say ratio `0.5` gives both triggers `0` and ratio `1.0`
gives left trigger full (`1`) with right `0`.  The code instead computes
`left = value * 2` for ratios at or above `0.5`: at ratio `0.5` the left
trigger receives `1` (full, not `0`) and at ratio `1.0` it receives `2`
(twice full scale).  Only the ratio-`0.0` case behaves as claimed.  The
mirrored branch `right = 1 - value * 2` below `0.5` has the intended
0-to-full shape, so the left branch is missing the `- 1` offset. -/
theorem trigger_split_eval :
    (Joystick.move_axis {} 0 (1/2)).2
      = [PadCommand.left_trigger_float 1, PadCommand.right_trigger_float 0, PadCommand.update]
    ∧ (Joystick.move_axis {} 0 1).2
      = [PadCommand.left_trigger_float 2, PadCommand.right_trigger_float 0, PadCommand.update]
    ∧ (Joystick.move_axis {} 0 0).2
      = [PadCommand.left_trigger_float 0, PadCommand.right_trigger_float 1, PadCommand.update]
    ∧ (1 : ℚ) ≠ 0 ∧ (2 : ℚ) ≠ 1 := by
  have hc : py_contains "triggers" ":" = false := by decide
  refine ⟨?_, ?_, ?_, by norm_num, by norm_num⟩ <;>
    simp [Joystick.move_axis, Joystick.AXES, hc] <;> norm_num

/-- For a well-formed control-change or program-change message, value
extraction succeeds. -/
lemma extract_ok_of_wf (msg : MidiMessage) (hwf : msg.wellFormed)
    (h : msg.type = "control_change" ∨ msg.type = "program_change") :
    ∃ v, extract_midi_value msg = Except.ok v := by
  obtain ⟨hcc, hpc, hnote⟩ := hwf
  rcases h with h | h
  · obtain ⟨hv, -⟩ := hcc h
    obtain ⟨v, hv⟩ := Option.isSome_iff_exists.mp hv
    exact ⟨v, by simp [extract_midi_value, hv]⟩
  · obtain ⟨hp, hv⟩ := hpc h
    obtain ⟨p, hp⟩ := Option.isSome_iff_exists.mp hp
    exact ⟨p, by simp [extract_midi_value, hv, hp]⟩

/-- C6: on well-formed messages, `extract_midi_value` maps a control-change
to its `value` attribute, a program-change to its `program` attribute, a
note-on to `1` and a note-off to `0`, and it fails with the
`UnrecognizedEventShape` error exactly when the message has none of those
value-bearing attributes (no `value`, no `program`, and not a note event).
The embedding is a pure function, so extraction has no side effects. -/
theorem extract_midi_value_spec (msg : MidiMessage) (hwf : msg.wellFormed) :
    (∀ v, msg.type = "control_change" → msg.value = some v → extract_midi_value msg = Except.ok v)
    ∧ (∀ p, msg.type = "program_change" → msg.program = some p → extract_midi_value msg = Except.ok p)
    ∧ (msg.type = "note_on" → extract_midi_value msg = Except.ok 1)
    ∧ (msg.type = "note_off" → extract_midi_value msg = Except.ok 0)
    ∧ (extract_midi_value msg = Except.error "UnrecognizedEventShape" ↔
        msg.value = none ∧ msg.program = none
        ∧ msg.type ≠ "note_on" ∧ msg.type ≠ "note_off") := by
  obtain ⟨hcc, hpc, hnote⟩ := hwf
  rcases hv : msg.value with _ | v <;> rcases hp : msg.program with _ | p <;>
    simp_all [extract_midi_value] <;> split_ifs <;> simp_all

/-- Witness for `extract_midi_value_spec`: a concrete control-change message
with `value = 42` extracts to `42`. -/
theorem extract_midi_value_spec_witness :
    extract_midi_value
        { type := "control_change", channel := some 0, value := some 42, control := some 7 }
      = Except.ok 42 :=
  (extract_midi_value_spec
      { type := "control_change", channel := some 0, value := some 42, control := some 7 }
      (by decide)).1 42 rfl rfl

/-- C7: `Mapping` construction fails exactly when a button or axis action
lacks a target joystick, or an axis action is combined with a note (gate)
condition; otherwise the mapping is accepted unchanged.  The checks run in
the constructor, before any event is processed. -/
theorem init_invariants (m : Mapping) :
    ((∃ e, Mapping.init m = Except.error e) ↔
      ((m.do_button.isSome ∨ m.do_axis.isSome) ∧ m.with_joystick = none)
      ∨ (m.when_note.isSome ∧ m.do_axis.isSome))
    ∧ (∀ m2, Mapping.init m = Except.ok m2 → m2 = m) := by
  unfold Mapping.init
  split_ifs with h1 h2 <;> simp_all

/-- C9: on the four composite stick axes, `Joystick.move_axis` updates only
the addressed component of the retained per-stick state, keeps the other
component, resubmits the full two-component state, and sign-inverts the Y
component: ratio `r` becomes `r * 2 - 1` on X components and `-(r * 2 - 1)`
on Y components. -/
theorem move_axis_composite_stick (j : Joystick) (r : ℚ) :
    Joystick.move_axis j 1 r
      = ({ j with current_params_left_joystick_float :=
             { x_value_float := r * 2 - 1,
               y_value_float := j.current_params_left_joystick_float.y_value_float } },
         [PadCommand.left_joystick_float (r * 2 - 1)
            j.current_params_left_joystick_float.y_value_float,
          PadCommand.update])
    ∧ Joystick.move_axis j 2 r
      = ({ j with current_params_left_joystick_float :=
             { x_value_float := j.current_params_left_joystick_float.x_value_float,
               y_value_float := -(r * 2 - 1) } },
         [PadCommand.left_joystick_float j.current_params_left_joystick_float.x_value_float
            (-(r * 2 - 1)),
          PadCommand.update])
    ∧ Joystick.move_axis j 3 r
      = ({ j with current_params_right_joystick_float :=
             { x_value_float := r * 2 - 1,
               y_value_float := j.current_params_right_joystick_float.y_value_float } },
         [PadCommand.right_joystick_float (r * 2 - 1)
            j.current_params_right_joystick_float.y_value_float,
          PadCommand.update])
    ∧ Joystick.move_axis j 4 r
      = ({ j with current_params_right_joystick_float :=
             { x_value_float := j.current_params_right_joystick_float.x_value_float,
               y_value_float := -(r * 2 - 1) } },
         [PadCommand.right_joystick_float j.current_params_right_joystick_float.x_value_float
            (-(r * 2 - 1)),
          PadCommand.update]) := by
  have h1 : py_contains "left_joystick_float:x_value_float" ":" = true := by decide
  have h2 : py_split "left_joystick_float:x_value_float" ":"
      = ["left_joystick_float", "x_value_float"] := by decide
  have h3 : py_contains "x_value_float" "y" = false := by decide
  have h4 : py_contains "y_value_float" "y" = true := by decide
  have h5 : py_contains "left_joystick_float:y_value_float" ":" = true := by decide
  have h6 : py_split "left_joystick_float:y_value_float" ":"
      = ["left_joystick_float", "y_value_float"] := by decide
  have h7 : py_contains "right_joystick_float:x_value_float" ":" = true := by decide
  have h8 : py_split "right_joystick_float:x_value_float" ":"
      = ["right_joystick_float", "x_value_float"] := by decide
  have h9 : py_contains "right_joystick_float:y_value_float" ":" = true := by decide
  have h10 : py_split "right_joystick_float:y_value_float" ":"
      = ["right_joystick_float", "y_value_float"] := by decide
  refine ⟨?_, ?_, ?_, ?_⟩ <;>
    simp [Joystick.move_axis, Joystick.AXES, h1, h2, h3, h4, h5, h6, h7, h8, h9, h10]

set_option maxHeartbeats 1000000 in
/-- C10: on well-formed messages, `Mapping.matches` never fails: whenever the
value-range step is reached, the program or control clause has already
forced the message to be a program-change (carrying `program`) or a
control-change (carrying `value`), so the extraction error branch is
unreachable from `matches` (and so are the attribute-access errors). -/
theorem matches_never_extracts_error (m : Mapping) (msg : MidiMessage) (hwf : msg.wellFormed) :
    ∃ b, m.matches msg = Except.ok b := by
  obtain ⟨hcc, hpc, hnote⟩ := hwf
  unfold Mapping.matches
  split_ifs with h1 h2 h3 h4 h5 h6 h7 h8 h9
  · exact ⟨false, rfl⟩
  · exact ⟨false, rfl⟩
  · exact ⟨false, rfl⟩
  · exfalso
    obtain ⟨hsome, hnone⟩ := h4
    have htype : msg.type = "control_change" := by
      by_contra hne
      exact h3 ⟨hsome, hne⟩
    obtain ⟨-, hctrl⟩ := hcc htype
    simp [hnone] at hctrl
  · exact ⟨false, rfl⟩
  · exact ⟨false, rfl⟩
  · exfalso
    obtain ⟨hsome, hnone⟩ := h7
    have htype : msg.type = "note_on" ∨ msg.type = "note_off" := by
      by_contra hne
      push_neg at hne
      exact h6 ⟨hsome, hne.1, hne.2⟩
    obtain ⟨hnote', -⟩ := hnote htype
    simp [hnone] at hnote'
  · exact ⟨false, rfl⟩
  · have htype : msg.type = "control_change" ∨ msg.type = "program_change" := by
      rcases h9 with h | h
      · right
        by_contra hne
        exact h2 ⟨h, hne⟩
      · left
        by_contra hne
        exact h3 ⟨h, hne⟩
    obtain ⟨v, hv⟩ := extract_ok_of_wf msg ⟨hcc, hpc, hnote⟩ htype
    rw [hv]
    by_cases hr : m.when_value_between.1 ≤ v ∧ v ≤ m.when_value_between.2
    · exact ⟨true, by simp [hr]⟩
    · exact ⟨false, by simp [hr]⟩
  · exact ⟨true, rfl⟩

/-- Witness for `matches_never_extracts_error`: a concrete program-scoped
mapping on a concrete program-change message. -/
theorem matches_never_extracts_error_witness :
    ∃ b, Mapping.matches { when_device := "W", when_is_program := true }
        { type := "program_change", channel := some 1, program := some 5 } = Except.ok b :=
  matches_never_extracts_error
    { when_device := "W", when_is_program := true }
    { type := "program_change", channel := some 1, program := some 5 }
    (by decide)

/-- C3: for a mapping with an axis action and a non-degenerate
`when_value_between` (a degenerate range makes the source's division raise
`ZeroDivisionError` instead of emitting), `Mapping.run` emits the unclamped
ratio `(scalar - in_lo) / (in_hi - in_lo)` over `when_value_between` to the
joystick sink (the axis move is the first emitted action); with the range
`(0, 127)` scalar `0` gives ratio `0` and scalar `127` gives ratio `1`, and
for `in_lo < in_hi` the ratio is monotone in the scalar. -/
theorem run_axis_ratio (m : Mapping) (msg : MidiMessage) (ax j : Nat) (v : Int)
    (hax : m.do_axis = some ax) (hj : m.with_joystick = some j)
    (hne : m.when_value_between.1 ≠ m.when_value_between.2)
    (hv : extract_midi_value msg = Except.ok v) :
    (∃ rest, m.run msg = Except.ok (SinkAction.move_axis j ax
        (((v : ℚ) - (m.when_value_between.1 : ℚ))
          / ((m.when_value_between.2 : ℚ) - (m.when_value_between.1 : ℚ))) :: rest))
    ∧ (m.when_value_between = (0, 127) →
        (v = 0 →
          ((v : ℚ) - (m.when_value_between.1 : ℚ))
            / ((m.when_value_between.2 : ℚ) - (m.when_value_between.1 : ℚ)) = 0)
        ∧ (v = 127 →
          ((v : ℚ) - (m.when_value_between.1 : ℚ))
            / ((m.when_value_between.2 : ℚ) - (m.when_value_between.1 : ℚ)) = 1))
    ∧ (∀ v1 v2 : Int, v1 ≤ v2 →
        (m.when_value_between.1 : ℚ) < (m.when_value_between.2 : ℚ) →
        ((v1 : ℚ) - (m.when_value_between.1 : ℚ))
            / ((m.when_value_between.2 : ℚ) - (m.when_value_between.1 : ℚ))
          ≤ ((v2 : ℚ) - (m.when_value_between.1 : ℚ))
            / ((m.when_value_between.2 : ℚ) - (m.when_value_between.1 : ℚ))) := by
  refine ⟨?_, ?_, ?_⟩
  · unfold Mapping.run
    rw [hv, hax, hj]
    have hne2 : ¬(m.when_value_between.2 - m.when_value_between.1 = 0) :=
      sub_ne_zero.mpr (Ne.symm hne)
    rcases hb : m.do_button with _ | b <;> rcases hkk : m.do_keys with _ | k <;>
      simp only [hb, hkk, if_neg hne2] <;> exact ⟨_, rfl⟩
  · intro hrange
    rw [hrange]
    constructor <;> intro hveq <;> rw [hveq] <;> norm_num
  · intro v1 v2 h12 hlt
    have h12q : (v1 : ℚ) ≤ (v2 : ℚ) := by exact_mod_cast h12
    gcongr <;> linarith

/-- Witness for `run_axis_ratio`: the W-FADER control-10 axis mapping of the
source's configuration, fed a control-change with value 64. -/
theorem run_axis_ratio_witness :
    ∃ rest, Mapping.run
        { when_device := "W-FADER", when_control := some 10, with_joystick := some 0,
          do_axis := some 0 }
        { type := "control_change", channel := some 0, value := some 64, control := some 10 }
      = Except.ok (SinkAction.move_axis 0 0
          ((((64 : Int) : ℚ) - ((0 : Int) : ℚ)) / (((127 : Int) : ℚ) - ((0 : Int) : ℚ))) :: rest) :=
  (run_axis_ratio
      { when_device := "W-FADER", when_control := some 10, with_joystick := some 0,
        do_axis := some 0 }
      { type := "control_change", channel := some 0, value := some 64, control := some 10 }
      0 0 64 rfl rfl (by decide) rfl).1

/-- C4: for a mapping with a button action, the on/off boolean `run` computes
is `scalar = 1` when the note (gate) condition is set, otherwise
`scalar ≥ on_off_threshold` when that threshold is set, otherwise
`scalar ≥ (low + high) / 2` over `when_value_between`; `run` presses the
button when it is true and releases it when it is false.  With range
`(0, 127)` and no explicit threshold, scalar 63 releases and scalar 64
presses (midpoint 63.5).  The same boolean also drives the keys action,
whose ordering is settled separately. -/
theorem run_button_on_off (m : Mapping) (msg : MidiMessage) (b j : Nat) (v : Int)
    (hb : m.do_button = some b) (hj : m.with_joystick = some j)
    (ha : m.do_axis = none) (hkk : m.do_keys = none)
    (hv : extract_midi_value msg = Except.ok v) :
    (((m.when_note.isSome ∧ v = 1)
      ∨ (m.when_note = none ∧
          ((∃ t, m.do_on_off_threshold = some t ∧ t ≤ (v : ℚ))
           ∨ (m.do_on_off_threshold = none
              ∧ ((m.when_value_between.1 + m.when_value_between.2 : Int) : ℚ) / 2 ≤ (v : ℚ))))) →
      m.run msg = Except.ok [SinkAction.press j b])
    ∧ (((m.when_note.isSome ∧ v ≠ 1)
      ∨ (m.when_note = none ∧
          ((∃ t, m.do_on_off_threshold = some t ∧ ¬ t ≤ (v : ℚ))
           ∨ (m.do_on_off_threshold = none
              ∧ ¬ ((m.when_value_between.1 + m.when_value_between.2 : Int) : ℚ) / 2 ≤ (v : ℚ))))) →
      m.run msg = Except.ok [SinkAction.release j b])
    ∧ (m.when_note = none → m.do_on_off_threshold = none → m.when_value_between = (0, 127) →
        ((v = 63 → m.run msg = Except.ok [SinkAction.release j b])
         ∧ (v = 64 → m.run msg = Except.ok [SinkAction.press j b]))) := by
  have hrun : m.run msg = Except.ok
      (if (if m.when_note.isSome then decide (v = 1)
           else
             match m.do_on_off_threshold with
             | some threshold => decide (threshold ≤ (v : ℚ))
             | none =>
               decide (((m.when_value_between.1 + m.when_value_between.2 : Int) : ℚ) / 2
                 ≤ (v : ℚ)))
        then [SinkAction.press j b] else [SinkAction.release j b]) := by
    unfold Mapping.run
    rw [hv, ha, hb, hj]
    simp [hkk]
  refine ⟨?_, ?_, ?_⟩
  · rintro (⟨hsome, hv1⟩ | ⟨hnone, ⟨t, ht, htle⟩ | ⟨ht, hmid⟩⟩) <;>
      simp_all [hrun]
  · rintro (⟨hsome, hv1⟩ | ⟨hnone, ⟨t, ht, htle⟩ | ⟨ht, hmid⟩⟩) <;>
      simp_all [hrun]
  · intro hnone ht hrange
    rw [hrun]
    constructor <;> intro hveq <;> subst hveq <;>
      simp [hnone, ht, hrange] <;> norm_num

/-- Witness for `run_button_on_off`: the W-FADER control-30 button mapping
shape from the source's configuration (without the explicit threshold), fed
value 64, presses the button. -/
theorem run_button_on_off_witness :
    Mapping.run
        { when_device := "W-FADER", when_control := some 30, with_joystick := some 0,
          do_button := some 0 }
        { type := "control_change", channel := some 0, value := some 64, control := some 30 }
      = Except.ok [SinkAction.press 0 0] :=
  ((run_button_on_off
      { when_device := "W-FADER", when_control := some 30, with_joystick := some 0,
        do_button := some 0 }
      { type := "control_change", channel := some 0, value := some 64, control := some 30 }
      0 0 64 rfl rfl rfl rfl rfl).2.2 rfl rfl rfl).2 rfl

/-- C8: for a mapping with a keys action, the key string is split on the
reserved separator `+` into an ordered list; when the on/off boolean is true
`run` emits a key-down per key in forward order, when it is false a key-up
per key in reverse order; for `"ctrl+c"` that is down-ctrl-then-down-c and
up-c-then-up-ctrl. -/
theorem run_keys_order (m : Mapping) (msg : MidiMessage) (k : String) (v : Int)
    (hk : m.do_keys = some k) (hb : m.do_button = none) (ha : m.do_axis = none)
    (hv : extract_midi_value msg = Except.ok v) :
    Mapping.KEY_SEP = "+"
    ∧ (((m.when_note.isSome ∧ v = 1)
      ∨ (m.when_note = none ∧
          ((∃ t, m.do_on_off_threshold = some t ∧ t ≤ (v : ℚ))
           ∨ (m.do_on_off_threshold = none
              ∧ ((m.when_value_between.1 + m.when_value_between.2 : Int) : ℚ) / 2 ≤ (v : ℚ))))) →
      m.run msg = Except.ok ((py_split k Mapping.KEY_SEP).map SinkAction.keyDown))
    ∧ (((m.when_note.isSome ∧ v ≠ 1)
      ∨ (m.when_note = none ∧
          ((∃ t, m.do_on_off_threshold = some t ∧ ¬ t ≤ (v : ℚ))
           ∨ (m.do_on_off_threshold = none
              ∧ ¬ ((m.when_value_between.1 + m.when_value_between.2 : Int) : ℚ) / 2 ≤ (v : ℚ))))) →
      m.run msg = Except.ok (((py_split k Mapping.KEY_SEP).reverse).map SinkAction.keyUp))
    ∧ (k = "ctrl+c" →
        (py_split k Mapping.KEY_SEP).map SinkAction.keyDown
            = [SinkAction.keyDown "ctrl", SinkAction.keyDown "c"]
        ∧ ((py_split k Mapping.KEY_SEP).reverse).map SinkAction.keyUp
            = [SinkAction.keyUp "c", SinkAction.keyUp "ctrl"]) := by
  have hrun : m.run msg = Except.ok
      (if (if m.when_note.isSome then decide (v = 1)
           else
             match m.do_on_off_threshold with
             | some threshold => decide (threshold ≤ (v : ℚ))
             | none =>
               decide (((m.when_value_between.1 + m.when_value_between.2 : Int) : ℚ) / 2
                 ≤ (v : ℚ)))
        then (py_split k Mapping.KEY_SEP).map SinkAction.keyDown
        else ((py_split k Mapping.KEY_SEP).reverse).map SinkAction.keyUp) := by
    unfold Mapping.run
    rw [hv, ha, hb, hk]
    simp
  refine ⟨rfl, ?_, ?_, ?_⟩
  · rintro (⟨hsome, hv1⟩ | ⟨hnone, ⟨t, ht, htle⟩ | ⟨ht, hmid⟩⟩) <;>
      simp_all [hrun]
  · rintro (⟨hsome, hv1⟩ | ⟨hnone, ⟨t, ht, htle⟩ | ⟨ht, hmid⟩⟩) <;>
      simp_all [hrun]
  · intro hkc
    subst hkc
    constructor <;> decide

/-- Witness for `run_keys_order`: a keys mapping on `"ctrl+c"` fed a
control-change with value 127 presses ctrl then c. -/
theorem run_keys_order_witness :
    Mapping.run
        { when_device := "W-FADER", when_control := some 31, do_keys := some "ctrl+c" }
        { type := "control_change", channel := some 0, value := some 127, control := some 31 }
      = Except.ok [SinkAction.keyDown "ctrl", SinkAction.keyDown "c"] := by
  have h := run_keys_order
      { when_device := "W-FADER", when_control := some 31, do_keys := some "ctrl+c" }
      { type := "control_change", channel := some 0, value := some 127, control := some 31 }
      "ctrl+c" 127 rfl rfl rfl rfl
  rw [h.2.1 (Or.inr ⟨rfl, Or.inr ⟨rfl, by norm_num⟩⟩), (h.2.2.2 rfl).1]

set_option maxHeartbeats 1000000 in
/-- C5: `Mapping.matches` answers true exactly at the conjunction of its set
condition clauses: a set channel must equal the event's channel (an event
without the channel attribute never matches a channel-constrained mapping),
a program condition requires a program-change event, a control condition a
control-change with equal controller id, a note condition a note-on or
note-off with equal note id, and the inclusive `when_value_between` check is
applied exactly when the program or control condition is set — never to
note-gate matches. -/
theorem matches_conjunction (m : Mapping) (msg : MidiMessage) :
    m.matches msg = Except.ok true ↔
      ((∀ c, m.when_channel = some c → msg.channel = some c)
       ∧ (m.when_is_program = true → msg.type = "program_change")
       ∧ (∀ c, m.when_control = some c → msg.type = "control_change" ∧ msg.control = some c)
       ∧ (∀ n, m.when_note = some n →
            (msg.type = "note_on" ∨ msg.type = "note_off") ∧ msg.note = some n)
       ∧ ((m.when_is_program = true ∨ m.when_control.isSome) →
            ∃ v, extract_midi_value msg = Except.ok v
              ∧ m.when_value_between.1 ≤ v ∧ v ≤ m.when_value_between.2)) := by
  have clauses :
      ¬(m.when_channel.isSome ∧ msg.channel ≠ m.when_channel) →
      ¬(m.when_is_program = true ∧ msg.type ≠ "program_change") →
      ¬(m.when_control.isSome ∧ msg.type ≠ "control_change") →
      ¬(m.when_control.isSome ∧ msg.control ≠ m.when_control) →
      ¬(m.when_note.isSome ∧ msg.type ≠ "note_on" ∧ msg.type ≠ "note_off") →
      ¬(m.when_note.isSome ∧ msg.note ≠ m.when_note) →
      ((∀ c, m.when_channel = some c → msg.channel = some c)
       ∧ (m.when_is_program = true → msg.type = "program_change")
       ∧ (∀ c, m.when_control = some c → msg.type = "control_change" ∧ msg.control = some c)
       ∧ (∀ n, m.when_note = some n →
            (msg.type = "note_on" ∨ msg.type = "note_off") ∧ msg.note = some n)) := by
    intro g1 g2 g3 g5 g6 g8
    push_neg at g1 g2 g3 g5 g6 g8
    refine ⟨?_, g2, ?_, ?_⟩
    · intro c hc
      have := g1 (by simp [hc])
      rw [hc] at this
      exact this
    · intro c hc
      refine ⟨g3 (by simp [hc]), ?_⟩
      have := g5 (by simp [hc])
      rw [hc] at this
      exact this
    · intro n hn
      have hsome : m.when_note.isSome := by simp [hn]
      have hnote := g8 hsome
      rw [hn] at hnote
      refine ⟨?_, hnote⟩
      by_cases hon : msg.type = "note_on"
      · exact Or.inl hon
      · exact Or.inr (g6 hsome hon)
  unfold Mapping.matches
  split_ifs with h1 h2 h3 h4 h5 h6 h7 h8 h9
  · refine iff_of_false (by simp) ?_
    rintro ⟨hch, -, -, -, -⟩
    obtain ⟨hs, hne⟩ := h1
    obtain ⟨c, hc⟩ := Option.isSome_iff_exists.mp hs
    exact hne (by rw [hch c hc, hc])
  · refine iff_of_false (by simp) ?_
    rintro ⟨-, hprog, -, -, -⟩
    exact h2.2 (hprog h2.1)
  · refine iff_of_false (by simp) ?_
    rintro ⟨-, -, hctrl, -, -⟩
    obtain ⟨hs, hne⟩ := h3
    obtain ⟨c, hc⟩ := Option.isSome_iff_exists.mp hs
    exact hne (hctrl c hc).1
  · refine iff_of_false (by simp) ?_
    rintro ⟨-, -, hctrl, -, -⟩
    obtain ⟨hs, hnone⟩ := h4
    obtain ⟨c, hc⟩ := Option.isSome_iff_exists.mp hs
    rw [(hctrl c hc).2] at hnone
    exact Option.some_ne_none c hnone
  · refine iff_of_false (by simp) ?_
    rintro ⟨-, -, hctrl, -, -⟩
    obtain ⟨hs, hne⟩ := h5
    obtain ⟨c, hc⟩ := Option.isSome_iff_exists.mp hs
    exact hne (by rw [(hctrl c hc).2, hc])
  · refine iff_of_false (by simp) ?_
    rintro ⟨-, -, -, hnote, -⟩
    obtain ⟨hs, hne_on, hne_off⟩ := h6
    obtain ⟨n, hn⟩ := Option.isSome_iff_exists.mp hs
    rcases (hnote n hn).1 with h | h
    · exact hne_on h
    · exact hne_off h
  · refine iff_of_false (by simp) ?_
    rintro ⟨-, -, -, hnote, -⟩
    obtain ⟨hs, hnone⟩ := h7
    obtain ⟨n, hn⟩ := Option.isSome_iff_exists.mp hs
    rw [(hnote n hn).2] at hnone
    exact Option.some_ne_none n hnone
  · refine iff_of_false (by simp) ?_
    rintro ⟨-, -, -, hnote, -⟩
    obtain ⟨hs, hne⟩ := h8
    obtain ⟨n, hn⟩ := Option.isSome_iff_exists.mp hs
    exact hne (by rw [(hnote n hn).2, hn])
  · rcases hext : extract_midi_value msg with e | v
    · refine iff_of_false (by simp) ?_
      rintro ⟨-, -, -, -, hrange⟩
      obtain ⟨v, hv, -, -⟩ := hrange h9
      exact Except.noConfusion hv
    · by_cases hr : m.when_value_between.1 ≤ v ∧ v ≤ m.when_value_between.2
      · refine iff_of_true (by simp [hr]) ?_
        obtain ⟨c1, c2, c3, c4⟩ := clauses h1 h2 h3 h5 h6 h8
        exact ⟨c1, c2, c3, c4, fun _ => ⟨v, rfl, hr.1, hr.2⟩⟩
      · refine iff_of_false (by simp [hr]) ?_
        rintro ⟨-, -, -, -, hrange⟩
        obtain ⟨v2, hv2, hlo, hhi⟩ := hrange h9
        obtain rfl : v = v2 := Except.ok.inj hv2
        exact hr ⟨hlo, hhi⟩
  · refine iff_of_true rfl ?_
    obtain ⟨c1, c2, c3, c4⟩ := clauses h1 h2 h3 h5 h6 h8
    exact ⟨c1, c2, c3, c4, fun h => absurd h h9⟩
